import Mathlib

/-
  Verification of the parametric-vase geometry core (src/src/main.ts).

  The program's numeric computations are embedded over exact rationals
  (floating-point rounding is outside the model); the one quantity that is
  genuinely real-valued, the interior cylinder volume, is split into a
  computable rational coefficient and the factor pi.
-/

namespace ParametricVase

/-- A 3D point with rational coordinates, modelling a three.js `Vector3`
as the triple (x, y, z). -/
abbrev Vec3 : Type := ℚ × ℚ × ℚ

/-- `Vector3.dot`: componentwise product summed. -/
def dot (u v : Vec3) : ℚ :=
  u.1 * v.1 + u.2.1 * v.2.1 + u.2.2 * v.2.2

/-- `Vector3.cross`: the usual cross product. -/
def cross (u v : Vec3) : Vec3 :=
  (u.2.1 * v.2.2 - u.2.2 * v.2.1,
   u.2.2 * v.1 - u.1 * v.2.2,
   u.1 * v.2.1 - u.2.1 * v.1)

/-- `Vector3.lerp`: `p1 + (p2 - p1) * t` componentwise. -/
def lerp (p1 p2 : Vec3) (t : ℚ) : Vec3 :=
  (p1.1 + (p2.1 - p1.1) * t,
   p1.2.1 + (p2.2.1 - p1.2.1) * t,
   p1.2.2 + (p2.2.2 - p1.2.2) * t)

/-- Midpoint of two points (used to state the spec's midpoint scenario). -/
def midpoint3 (p1 p2 : Vec3) : Vec3 :=
  ((p1.1 + p2.1) / 2, (p1.2.1 + p2.2.1) / 2, (p1.2.2 + p2.2.2) / 2)

/-- `computeIntersection` (main.ts lines 432-468): given an edge `p1 p2` with
signed plane distances `d1 d2` and a tolerance, return the list of points the
routine pushes into its bucket, in order. The `plane` parameter of the source
function is unused by its body and therefore omitted. -/
def computeIntersection (p1 p2 : Vec3) (d1 d2 tol : ℚ) : List Vec3 :=
  let hasSignChange := (tol < d1 ∧ d2 < -tol) ∨ (d1 < -tol ∧ tol < d2)
  let onPlane1 := |d1| ≤ tol
  let onPlane2 := |d2| ≤ tol
  if onPlane1 ∧ onPlane2 then [p1, p2]
  else if onPlane1 then [p1]
  else if onPlane2 then [p2]
  else if ¬hasSignChange then []
  else
    let t := d1 / (d1 - d2)
    if 0 ≤ t ∧ t ≤ 1 then [lerp p1 p2 t] else []

/-- Edge-intersection behaviour as the spec sentence describes it, case by
case: both endpoints when both are within tolerance, the single on-plane
endpoint when exactly one is, the interpolated point (guarded by `t ∈ [0,1]`)
on a strict sign change, and nothing otherwise. -/
def computeIntersectionSpec (p1 p2 : Vec3) (d1 d2 tol : ℚ) : List Vec3 :=
  if |d1| ≤ tol ∧ |d2| ≤ tol then [p1, p2]
  else if |d1| ≤ tol then [p1]
  else if |d2| ≤ tol then [p2]
  else if (tol < d1 ∧ d2 < -tol) ∨ (d1 < -tol ∧ tol < d2) then
    let t := d1 / (d1 - d2)
    if 0 ≤ t ∧ t ≤ 1 then [lerp p1 p2 t] else []
  else []

/-- C2: `computeIntersection` implements exactly the case analysis of the
spec (both endpoints when both distances are within tolerance, the on-plane
endpoint when exactly one is, `lerp(p1,p2,d1/(d1-d2))` guarded by `t ∈ [0,1]`
on strictly opposite signs, nothing otherwise), and in particular for
`d1 = 5`, `d2 = -5`, `tolerance = 1e-4` it returns exactly the midpoint of
the two input points. -/
theorem computeIntersection_matches_spec :
    (∀ p1 p2 : Vec3, ∀ d1 d2 tol : ℚ,
      computeIntersection p1 p2 d1 d2 tol = computeIntersectionSpec p1 p2 d1 d2 tol) ∧
    (∀ p1 p2 : Vec3,
      computeIntersection p1 p2 5 (-5) (1 / 10000) = [midpoint3 p1 p2]) := by
  constructor
  · intro p1 p2 d1 d2 tol
    simp only [computeIntersection, computeIntersectionSpec]
    split_ifs <;> tauto
  · intro p1 p2
    have h5 : ¬(|(5 : ℚ)| ≤ 1 / 10000) := by norm_num
    have h5' : ¬(|(-5 : ℚ)| ≤ 1 / 10000) := by norm_num
    simp only [computeIntersection]
    rw [if_neg (by tauto), if_neg h5, if_neg h5',
      if_neg (by push_neg; exact Or.inl (by norm_num))]
    norm_num [lerp, midpoint3, Prod.ext_iff]
    refine ⟨by ring, by ring, by ring⟩

/-- C10: for a positive tolerance and distances with strictly opposite signs
beyond the tolerance, the interpolation parameter `t = d1/(d1-d2)` lies
strictly in `(0,1)`, the divisor `d1 - d2` is nonzero, and
`computeIntersection` emits exactly the single interpolated point. -/
theorem strict_sign_change_single_point (p1 p2 : Vec3) (d1 d2 tol : ℚ)
    (htol : 0 < tol)
    (h : (tol < d1 ∧ d2 < -tol) ∨ (d1 < -tol ∧ tol < d2)) :
    d1 - d2 ≠ 0 ∧ 0 < d1 / (d1 - d2) ∧ d1 / (d1 - d2) < 1 ∧
      computeIntersection p1 p2 d1 d2 tol = [lerp p1 p2 (d1 / (d1 - d2))] := by
  have hne : d1 - d2 ≠ 0 := by rcases h with ⟨h1, h2⟩ | ⟨h1, h2⟩ <;> intro hc <;> linarith
  have ht0 : 0 < d1 / (d1 - d2) := by
    rcases h with ⟨h1, h2⟩ | ⟨h1, h2⟩
    · exact div_pos (by linarith) (by linarith)
    · exact div_pos_of_neg_of_neg (by linarith) (by linarith)
  have ht1 : d1 / (d1 - d2) < 1 := by
    rcases h with ⟨h1, h2⟩ | ⟨h1, h2⟩
    · rw [div_lt_one (by linarith)]; linarith
    · rw [div_lt_one_of_neg (by linarith)]; linarith
  refine ⟨hne, ht0, ht1, ?_⟩
  have hop1 : ¬(|d1| ≤ tol) := by
    rw [abs_le]; push_neg
    rcases h with ⟨h1, _⟩ | ⟨h1, _⟩ <;> intro hc <;> linarith
  have hop2 : ¬(|d2| ≤ tol) := by
    rw [abs_le]; push_neg
    rcases h with ⟨_, h2⟩ | ⟨_, h2⟩ <;> intro hc <;> linarith
  simp only [computeIntersection]
  rw [if_neg (by tauto), if_neg hop1, if_neg hop2, if_neg (by tauto),
    if_pos ⟨le_of_lt ht0, le_of_lt ht1⟩]

/-- Witness for C10 at `d1 = 5`, `d2 = -5`, `tolerance = 1e-4`. -/
theorem strict_sign_change_single_point_witness :
    (0 : ℚ) < 1 / 10000 ∧
      ((5 : ℚ) - (-5) ≠ 0 ∧ 0 < (5 : ℚ) / (5 - (-5)) ∧ (5 : ℚ) / (5 - (-5)) < 1 ∧
        computeIntersection ((0, 0, 0) : Vec3) ((2, 4, 6) : Vec3) 5 (-5) (1 / 10000) =
          [lerp ((0, 0, 0) : Vec3) ((2, 4, 6) : Vec3) ((5 : ℚ) / (5 - (-5)))]) :=
  ⟨by norm_num,
    strict_sign_change_single_point ((0, 0, 0) : Vec3) ((2, 4, 6) : Vec3) 5 (-5) (1 / 10000)
      (by norm_num) (Or.inl (by norm_num))⟩

/-- The shared parameter record `VaseParams` (main.ts lines 34-44): the
display-only flags carried by the richer variant are not part of the
geometry and measurement routines and are omitted. -/
structure VaseParams where
  height : ℚ
  baseRadius : ℚ
  wallThickness : ℚ
  radialSegments : ℚ
  heightSegments : ℚ
  sectionEnabled : Bool
  sectionOffset : ℚ
deriving DecidableEq

/-- The initial parameter set (main.ts lines 50-60). -/
def defaultParams : VaseParams :=
  { height := 220, baseRadius := 45, wallThickness := 4,
    radialSegments := 96, heightSegments := 110,
    sectionEnabled := false, sectionOffset := 0 }

/-- `innerRadius` of `computeInteriorVolume` (main.ts line 275):
`max(baseRadius - wallThickness, 0)`. -/
def innerRadiusInterior (p : VaseParams) : ℚ :=
  max (p.baseRadius - p.wallThickness) 0

/-- `bottomThickness` (main.ts lines 238 and 277):
`min(max(wallThickness * 2, 2), height * 0.4)`. -/
def bottomThicknessOf (p : VaseParams) : ℚ :=
  min (max (p.wallThickness * 2) 2) (p.height * (2 / 5))

/-- `height` after the floor applied in both geometry and volume code
(main.ts lines 239 and 278): `max(height, bottomThickness + 1)`. -/
def clampedHeightOf (p : VaseParams) : ℚ :=
  max p.height (bottomThicknessOf p + 1)

/-- `innerHeight` of `computeInteriorVolume` (main.ts line 279):
`max(height - bottomThickness, 0)` with the already clamped height. -/
def innerHeightInterior (p : VaseParams) : ℚ :=
  max (clampedHeightOf p - bottomThicknessOf p) 0

/-- The rational coefficient of `computeInteriorVolume` (main.ts lines
273-281): the function returns pi times this value. -/
def interiorVolumeCoeff (p : VaseParams) : ℚ :=
  if innerRadiusInterior p ≤ 0 then 0
  else innerRadiusInterior p ^ 2 * innerHeightInterior p

/-- `computeInteriorVolume` (main.ts lines 273-281):
`π · innerRadius² · innerHeight`, `0` when `innerRadius ≤ 0`. -/
noncomputable def computeInteriorVolume (p : VaseParams) : ℝ :=
  Real.pi * (interiorVolumeCoeff p : ℝ)

/-- C1 counterexample: at `height = 1`, `baseRadius = 45`,
`wallThickness = 4` the claimed closed form
`π · max(baseRadius - wallThickness, 0)² · max(height - clamp(2·wallThickness, [2, 0.4·height]), 0)`
does not equal what `computeInteriorVolume` returns: the code first clamps
the height up to `bottomThickness + 1`, the claimed formula does not. -/
theorem interiorVolume_claim_cex :
    computeInteriorVolume
        { height := 1, baseRadius := 45, wallThickness := 4,
          radialSegments := 96, heightSegments := 110,
          sectionEnabled := false, sectionOffset := 0 } ≠
      Real.pi * (max ((45 : ℝ) - 4) 0) ^ 2 *
        max ((1 : ℝ) - min (max (4 * 2) 2) (1 * (2 / 5))) 0 := by
  have hcoeff : interiorVolumeCoeff
      { height := 1, baseRadius := 45, wallThickness := 4,
        radialSegments := 96, heightSegments := 110,
        sectionEnabled := false, sectionOffset := 0 } = 1681 := by
    norm_num [interiorVolumeCoeff, innerRadiusInterior, innerHeightInterior,
      clampedHeightOf, bottomThicknessOf, max_def, min_def]
  have hmax : (max ((45 : ℝ) - 4) 0) = 41 := by norm_num [max_def]
  have hmin : min (max ((4 : ℝ) * 2) 2) (1 * (2 / 5)) = 2 / 5 := by
    norm_num [max_def, min_def]
  have hmax2 : max ((1 : ℝ) - 2 / 5) 0 = 3 / 5 := by norm_num [max_def]
  rw [computeInteriorVolume, hcoeff, hmax, hmin, hmax2]
  intro hc
  have hpi := Real.pi_pos
  nlinarith

/-- C1 (amended): `computeInteriorVolume` returns
`π · innerRadius² · innerHeight` with
`innerRadius = max(baseRadius - wallThickness, 0)`,
`bottomThickness = clamp(2·wallThickness, [2, 0.4·height])`, and
`innerHeight = max(h* - bottomThickness, 0)` for the clamped height
`h* = max(height, bottomThickness + 1)`; it returns `0` whenever
`innerRadius ≤ 0`; and at the default scenario
(`height = 220, baseRadius = 45, wallThickness = 4`) it equals
`π · 41² · 212`, within 1% of 1,119,500. -/
theorem interiorVolume_closed_form :
    (∀ p : VaseParams,
      computeInteriorVolume p =
        if max (p.baseRadius - p.wallThickness) 0 ≤ 0 then 0
        else
          Real.pi * ((max (p.baseRadius - p.wallThickness) 0 : ℚ) : ℝ) ^ 2 *
            ((max (max p.height (min (max (p.wallThickness * 2) 2) (p.height * (2 / 5)) + 1) -
                min (max (p.wallThickness * 2) 2) (p.height * (2 / 5))) 0 : ℚ) : ℝ)) ∧
    computeInteriorVolume defaultParams = Real.pi * 41 ^ 2 * 212 ∧
    |computeInteriorVolume defaultParams - 1119500| ≤ 1119500 / 100 := by
  have hdef : computeInteriorVolume defaultParams = Real.pi * 356372 := by
    have hc : interiorVolumeCoeff defaultParams = 356372 := by
      norm_num [interiorVolumeCoeff, innerRadiusInterior, innerHeightInterior,
        clampedHeightOf, bottomThicknessOf, defaultParams, max_def, min_def]
    rw [computeInteriorVolume, hc]; norm_num
  refine ⟨?_, ?_, ?_⟩
  · intro p
    by_cases h : max (p.baseRadius - p.wallThickness) 0 ≤ 0
    · rw [if_pos h, computeInteriorVolume, interiorVolumeCoeff,
        if_pos (by exact_mod_cast h)]
      norm_num
    · rw [if_neg h, computeInteriorVolume, interiorVolumeCoeff,
        if_neg (by exact_mod_cast h)]
      rw [innerRadiusInterior, innerHeightInterior, clampedHeightOf, bottomThicknessOf]
      push_cast
      ring
  · rw [hdef]; ring_nf
  · rw [hdef]
    rw [abs_le]
    have h1 := Real.pi_gt_d6
    have h2 := Real.pi_lt_d2
    constructor <;> nlinarith

/-- `getSectionLimit` (main.ts line 141):
`max(baseRadius - wallThickness, 5)`. -/
def getSectionLimit (p : VaseParams) : ℚ :=
  max (p.baseRadius - p.wallThickness) 5

/-- `MathUtils.clamp(value, min, max)` from three.js:
`max(min, Math.min(max, value))`. -/
def clampValue (v lo hi : ℚ) : ℚ := max lo (min hi v)

/-- The effect of `updateSectionState` (main.ts lines 143-155) on the
parameter record and the section plane: the section offset is clamped to
`[-limit, limit]` and the plane constant becomes its negation. The GUI
controller range update and material clipping assignment are display-only
and not modelled. -/
def updateSectionParams (p : VaseParams) : VaseParams :=
  { p with sectionOffset := clampValue p.sectionOffset (-(getSectionLimit p)) (getSectionLimit p) }

/-- `sectionPlane.constant` after `updateSectionState` (main.ts line 151). -/
def sectionPlaneConstantAfter (p : VaseParams) : ℚ :=
  -((updateSectionParams p).sectionOffset)

/-- C5 counterexample: with `baseRadius = 6`, `wallThickness = 3`
(`baseRadius - wallThickness = 3 < 5`) and `sectionOffset = 4` set beyond
`baseRadius - wallThickness`, the update pass leaves the offset at `4`:
it is not clamped to `baseRadius - wallThickness = 3` because the actual
limit is `max(baseRadius - wallThickness, 5) = 5`. -/
theorem sectionOffset_clamp_cex :
    (6 : ℚ) - 3 <
        ({ height := 220, baseRadius := 6, wallThickness := 3,
           radialSegments := 96, heightSegments := 110,
           sectionEnabled := true, sectionOffset := 4 } : VaseParams).sectionOffset ∧
      (updateSectionParams
          { height := 220, baseRadius := 6, wallThickness := 3,
            radialSegments := 96, heightSegments := 110,
            sectionEnabled := true, sectionOffset := 4 }).sectionOffset ≠ (6 : ℚ) - 3 := by
  constructor
  · norm_num
  · norm_num [updateSectionParams, clampValue, getSectionLimit, max_def, min_def]

/-- C5 (amended): after `updateSectionState`, the section offset lies in
`[-limit, limit]` for `limit = max(baseRadius - wallThickness, 5)`, the
other parameters are unchanged, and when `baseRadius - wallThickness ≥ 5`
(so that the limit equals `baseRadius - wallThickness`) an offset set
beyond that limit is clamped to exactly the limit. -/
theorem sectionOffset_clamped (p : VaseParams) :
    -(getSectionLimit p) ≤ (updateSectionParams p).sectionOffset ∧
    (updateSectionParams p).sectionOffset ≤ getSectionLimit p ∧
    (updateSectionParams p).baseRadius = p.baseRadius ∧
    (updateSectionParams p).wallThickness = p.wallThickness ∧
    (5 ≤ p.baseRadius - p.wallThickness →
      p.baseRadius - p.wallThickness < p.sectionOffset →
      (updateSectionParams p).sectionOffset = p.baseRadius - p.wallThickness) := by
  have hlim : (5 : ℚ) ≤ getSectionLimit p := le_max_right _ _
  refine ⟨?_, ?_, rfl, rfl, ?_⟩
  · rw [updateSectionParams]
    exact le_max_left _ _
  · rw [updateSectionParams]
    simp only [clampValue]
    rw [max_le_iff]
    exact ⟨by linarith, min_le_left _ _⟩
  · intro h5 hbeyond
    have hlimeq : getSectionLimit p = p.baseRadius - p.wallThickness :=
      max_eq_left h5
    rw [updateSectionParams]
    simp only [clampValue, hlimeq]
    rw [min_eq_left (le_of_lt hbeyond), max_eq_right (by linarith)]

/-- Witness for C5 at the defaults with an out-of-range offset
(`baseRadius - wallThickness = 41 ≥ 5`, offset set to `100`): the offset
is clamped to exactly `41`. -/
theorem sectionOffset_clamped_witness :
    (5 : ℚ) ≤ (45 : ℚ) - 4 ∧ (45 : ℚ) - 4 < 100 ∧
      (updateSectionParams
          { height := 220, baseRadius := 45, wallThickness := 4,
            radialSegments := 96, heightSegments := 110,
            sectionEnabled := true, sectionOffset := 100 }).sectionOffset =
        (45 : ℚ) - 4 :=
  ⟨by norm_num, by norm_num,
    (sectionOffset_clamped
        { height := 220, baseRadius := 45, wallThickness := 4,
          radialSegments := 96, heightSegments := 110,
          sectionEnabled := true, sectionOffset := 100 }).2.2.2.2
      (by norm_num) (by norm_num)⟩

/-- `Math.max(12, Math.floor(current.radialSegments))` (main.ts line 234),
as a natural number; the result is always at least 12. -/
def clampRadialSegments (p : VaseParams) : ℕ :=
  (max 12 ⌊p.radialSegments⌋).toNat

/-- `Math.max(1, Math.floor(current.heightSegments))` (main.ts line 235). -/
def clampHeightSegments (p : VaseParams) : ℕ :=
  (max 1 ⌊p.heightSegments⌋).toNat

/-- `outerRadius` of `createVaseGeometry` (main.ts line 236). -/
def outerRadiusGeom (p : VaseParams) : ℚ := p.baseRadius

/-- `innerRadius` of `createVaseGeometry` (main.ts line 237):
`max(baseRadius - wallThickness, 2)`. -/
def innerRadiusGeom (p : VaseParams) : ℚ :=
  max (p.baseRadius - p.wallThickness) 2

/-- Triangle count of an open-ended three.js
`CylinderGeometry(r, r, h, radialSegments, heightSegments, true)` with a
positive radius: each of the `radialSegments × heightSegments` side quads
contributes two triangles and there are no caps. `CylinderGeometry` is an
external library primitive; only its triangle count is needed here. -/
def cylinderSideTriangleCount (radial heightSeg : ℕ) : ℕ :=
  2 * radial * heightSeg

/-- Triangle count of a three.js `CircleGeometry(r, segments)`: a fan of
`segments` triangles. External library primitive, count only. -/
def circleTriangleCount (segments : ℕ) : ℕ := segments

/-- Triangle count of a three.js `RingGeometry(rIn, rOut, thetaSegments)`
with the default single phi segment: `thetaSegments` quads, two triangles
each. External library primitive, count only. -/
def ringTriangleCount (thetaSegments : ℕ) : ℕ := 2 * thetaSegments

/-- `mergeGeometries(geometries, false)` at the triangle-count level: the
merge concatenates the triangle lists of its inputs and yields `null`
(`none`) exactly when it produces no merged geometry, which for a list of
attribute-compatible inputs happens only when the list is empty. -/
def mergeGeometriesCount (counts : List ℕ) : Option ℕ :=
  if counts.isEmpty then none else some counts.sum

/-- The five sub-geometries of `createVaseGeometry` (main.ts lines 241-260)
by triangle count: outer wall, inner wall, base disk, inner-floor disk, lip
ring, in merge order. -/
def vaseSubCounts (p : VaseParams) : List ℕ :=
  [cylinderSideTriangleCount (clampRadialSegments p) (clampHeightSegments p),
   cylinderSideTriangleCount (clampRadialSegments p) (clampHeightSegments p),
   circleTriangleCount (clampRadialSegments p),
   circleTriangleCount (clampRadialSegments p),
   ringTriangleCount (clampRadialSegments p)]

/-- `createVaseGeometry` (main.ts lines 233-271) at the triangle-count
level: merge the five sub-geometries and throw
`'Failed to build vase geometry'` when the merge returns `null`. -/
def createVaseGeometryTriCount (p : VaseParams) : Except String ℕ :=
  match mergeGeometriesCount (vaseSubCounts p) with
  | none => Except.error ("Failed to build vase geometry")
  | some n => Except.ok n

/-- Total triangle count of the merged vase mesh. -/
def vaseTriCount (p : VaseParams) : ℕ := (vaseSubCounts p).sum

/-- C4 counterexample: parameters with positive height, base radius and
wall thickness (`height = 10`, `baseRadius = 1`, `wallThickness = 1/2`)
for which the derived inner radius `max(baseRadius - wallThickness, 2) = 2`
exceeds the outer radius `1`, refuting `innerRadius ≤ outerRadius` under
mere positivity. -/
theorem innerRadius_le_outer_cex :
    (0 : ℚ) <
        ({ height := 10, baseRadius := 1, wallThickness := 1 / 2,
           radialSegments := 96, heightSegments := 110,
           sectionEnabled := false, sectionOffset := 0 } : VaseParams).height ∧
      (0 : ℚ) < (1 : ℚ) ∧ (0 : ℚ) < (1 / 2 : ℚ) ∧
      outerRadiusGeom
          { height := 10, baseRadius := 1, wallThickness := 1 / 2,
            radialSegments := 96, heightSegments := 110,
            sectionEnabled := false, sectionOffset := 0 } <
        innerRadiusGeom
          { height := 10, baseRadius := 1, wallThickness := 1 / 2,
            radialSegments := 96, heightSegments := 110,
            sectionEnabled := false, sectionOffset := 0 } := by
  refine ⟨by norm_num, by norm_num, by norm_num, ?_⟩
  norm_num [outerRadiusGeom, innerRadiusGeom, max_def]

/-- C4 (amended): for parameters with positive height and wall thickness
and `baseRadius ≥ 2`, the geometry builder's derived
`innerRadius = max(baseRadius - wallThickness, 2)` satisfies
`innerRadius ≤ outerRadius` and `innerRadius ≥ 2` (the guard floor),
`bottomThickness = clamp(2·wallThickness, [2, 0.4·height])`, and
`createVaseGeometry` returns a mesh with a non-empty triangle list. -/
theorem createVaseGeometry_invariants (p : VaseParams)
    (hh : 0 < p.height) (hw : 0 < p.wallThickness) (hr : 2 ≤ p.baseRadius) :
    innerRadiusGeom p ≤ outerRadiusGeom p ∧
    2 ≤ innerRadiusGeom p ∧
    bottomThicknessOf p = min (max (2 * p.wallThickness) 2) (p.height * (2 / 5)) ∧
    0 < vaseTriCount p ∧
    createVaseGeometryTriCount p = Except.ok (vaseTriCount p) := by
  refine ⟨?_, le_max_right _ _, ?_, ?_, ?_⟩
  · rw [innerRadiusGeom, outerRadiusGeom, max_le_iff]
    exact ⟨by linarith, hr⟩
  · rw [bottomThicknessOf]; ring_nf
  · have h12 : 12 ≤ clampRadialSegments p := by
      rw [clampRadialSegments]
      have : (12 : ℤ) ≤ max 12 ⌊p.radialSegments⌋ := le_max_left _ _
      omega
    have h1 : 1 ≤ clampHeightSegments p := by
      rw [clampHeightSegments]
      have : (1 : ℤ) ≤ max 1 ⌊p.heightSegments⌋ := le_max_left _ _
      omega
    rw [vaseTriCount, vaseSubCounts]
    simp only [List.sum_cons, List.sum_nil, cylinderSideTriangleCount,
      circleTriangleCount, ringTriangleCount]
    positivity
  · rw [createVaseGeometryTriCount, mergeGeometriesCount, vaseSubCounts]
    simp [vaseTriCount, vaseSubCounts]

/-- Witness for C4 at the default parameters. -/
theorem createVaseGeometry_invariants_witness :
    (0 : ℚ) < defaultParams.height ∧ (0 : ℚ) < defaultParams.wallThickness ∧
      (2 : ℚ) ≤ defaultParams.baseRadius ∧
      (innerRadiusGeom defaultParams ≤ outerRadiusGeom defaultParams ∧
        2 ≤ innerRadiusGeom defaultParams ∧
        bottomThicknessOf defaultParams =
          min (max (2 * defaultParams.wallThickness) 2) (defaultParams.height * (2 / 5)) ∧
        0 < vaseTriCount defaultParams ∧
        createVaseGeometryTriCount defaultParams = Except.ok (vaseTriCount defaultParams)) :=
  ⟨by norm_num [defaultParams], by norm_num [defaultParams], by norm_num [defaultParams],
    createVaseGeometry_invariants defaultParams (by norm_num [defaultParams])
      (by norm_num [defaultParams]) (by norm_num [defaultParams])⟩

/-- C8: `createVaseGeometry` throws its construction error exactly when the
merge of the five sub-geometries produces no output, and otherwise returns
the merged mesh; with its fixed non-empty list of five sub-geometries the
merge always produces output, so both sides of the equivalence are false
and the builder always returns the merged mesh. -/
theorem createVaseGeometry_error_iff_merge_empty (p : VaseParams) :
    createVaseGeometryTriCount p = Except.ok (vaseTriCount p) ∧
    ((∃ e, createVaseGeometryTriCount p = Except.error e) ↔
      mergeGeometriesCount (vaseSubCounts p) = none) := by
  have hmerge : mergeGeometriesCount (vaseSubCounts p) = some (vaseTriCount p) := by
    rw [mergeGeometriesCount, vaseSubCounts, vaseTriCount]
    simp [vaseSubCounts]
  constructor
  · rw [createVaseGeometryTriCount, hmerge]
  · constructor
    · rintro ⟨e, he⟩
      rw [createVaseGeometryTriCount, hmerge] at he
      exact absurd he (by simp)
    · intro hc
      rw [hmerge] at hc
      exact absurd hc (by simp)

/-- The mutable state read and written by the render/update code: the
parameter record, the current vase geometry (at triangle-count level, as
built by `createVaseGeometry`), the section-plane constant, and the
`needsUpdate` dirty flag (main.ts lines 98, 133, 138). -/
structure AppState where
  params : VaseParams
  sectionPlaneConstant : ℚ
  geometry : Except String ℕ
  needsUpdate : Bool

/-- `updateSectionState` (main.ts lines 143-155) on the app state: clamp
the section offset and reposition the section plane. -/
def updateSectionStateApp (s : AppState) : AppState :=
  { s with
    params := updateSectionParams s.params,
    sectionPlaneConstant := sectionPlaneConstantAfter s.params }

/-- `refreshGeometry` (main.ts lines 157-160): raise the dirty flag, then
run the section-state update. -/
def refreshGeometryApp (s : AppState) : AppState :=
  updateSectionStateApp { s with needsUpdate := true }

/-- `updateVaseMesh` (main.ts lines 283-292): rebuild the vase geometry
from the current parameters. -/
def updateVaseMeshApp (s : AppState) : AppState :=
  { s with geometry := createVaseGeometryTriCount s.params }

/-- One animation-frame tick (main.ts lines 502-509): rebuild once if the
dirty flag is set, then clear the flag; otherwise leave the state alone. -/
def animationTick (s : AppState) : AppState :=
  if s.needsUpdate then { updateVaseMeshApp s with needsUpdate := false } else s

/-- Number of `updateVaseMesh` invocations a tick performs from state `s`:
the rebuild sits under a single conditional in the frame callback. -/
def tickRebuildCount (s : AppState) : ℕ :=
  if s.needsUpdate then 1 else 0

/-- C9: in any animation-frame tick the mesh rebuild runs at most once no
matter how many parameter-change notifications (`refreshGeometry` calls)
preceded it — the notifications themselves never rebuild the geometry and
any positive number of them yields exactly one rebuild — the dirty flag is
cleared by the tick itself, and a tick entered with the flag unset performs
no rebuild and leaves the state unchanged. -/
theorem rebuild_once_per_tick (s : AppState) (n : ℕ) :
    tickRebuildCount (refreshGeometryApp^[n] s) ≤ 1 ∧
    (refreshGeometryApp^[n] s).geometry = s.geometry ∧
    tickRebuildCount (refreshGeometryApp^[n + 1] s) = 1 ∧
    (animationTick (refreshGeometryApp^[n] s)).needsUpdate = false ∧
    tickRebuildCount { s with needsUpdate := false } = 0 ∧
    animationTick { s with needsUpdate := false } = { s with needsUpdate := false } := by
  have hflag : ∀ t : AppState, (refreshGeometryApp t).needsUpdate = true := by
    intro t; rfl
  have hgeom : ∀ t : AppState, (refreshGeometryApp t).geometry = t.geometry := by
    intro t; rfl
  have hiter : ∀ m : ℕ, (refreshGeometryApp^[m] s).geometry = s.geometry := by
    intro m
    induction m with
    | zero => rfl
    | succ k ih => rw [Function.iterate_succ_apply', hgeom, ih]
  refine ⟨?_, hiter n, ?_, ?_, ?_, ?_⟩
  · rw [tickRebuildCount]
    split <;> omega
  · rw [Function.iterate_succ_apply', tickRebuildCount, if_pos (hflag _)]
  · rw [animationTick]
    split
    · rfl
    · rename_i hfalse
      simp only [Bool.not_eq_true] at hfalse
      exact hfalse
  · rw [tickRebuildCount]; simp
  · rw [animationTick]; simp

/-- A triangle: three vertex positions. -/
abbrev Tri : Type := Vec3 × Vec3 × Vec3

/-- An indexed triangle-mesh geometry as the measurement and intersection
routines see it: the `position` attribute (absent until a mesh is built)
and the optional index buffer. -/
structure BufferGeometryQ where
  position : Option (List Vec3)
  index : Option (List ℕ)

/-- `Vector3.fromBufferAttribute`: read vertex `i` of the position list. -/
def fetchVertex (ps : List Vec3) (i : ℕ) : Vec3 := ps.getD i (0, 0, 0)

/-- `indexAttr ? indexAttr.getX(k) : k` — the vertex index for slot `k`
(main.ts lines 389-391 and 482-484). -/
def vertexIndexAt (idx : Option (List ℕ)) (k : ℕ) : ℕ :=
  match idx with
  | some is => is.getD k 0
  | none => k

/-- `indexAttr ? indexAttr.count : positionAttr.count` — the number of
vertex slots driving the triangle loop. -/
def vertexSlotCount (ps : List Vec3) (idx : Option (List ℕ)) : ℕ :=
  match idx with
  | some is => is.length
  | none => ps.length

/-- The number of loop iterations of `for (tri = 0; tri < count / 3; ...)`
(main.ts lines 387-388 and 480-481): `⌈count / 3⌉` for an integer count. -/
def triangleTotal (ps : List Vec3) (idx : Option (List ℕ)) : ℕ :=
  (vertexSlotCount ps idx + 2) / 3

/-- The triangles the per-triangle loops of `computeMeshVolume` and
`buildSectionLineGeometry` visit, in order. -/
def trianglesFrom (ps : List Vec3) (idx : Option (List ℕ)) : List Tri :=
  (List.range (triangleTotal ps idx)).map fun tri =>
    (fetchVertex ps (vertexIndexAt idx (3 * tri)),
     fetchVertex ps (vertexIndexAt idx (3 * tri + 1)),
     fetchVertex ps (vertexIndexAt idx (3 * tri + 2)))

/-- The triangle list of a geometry; empty when the position attribute is
missing. -/
def meshTriangles (g : BufferGeometryQ) : List Tri :=
  match g.position with
  | none => []
  | some ps => trianglesFrom ps g.index

/-- The signed scalar-triple-product accumulator of `computeMeshVolume`
(main.ts lines 478-491): `Σ a · (b × c)` over all triangles. -/
def signedVolumeSum (ts : List Tri) : ℚ :=
  (ts.map fun t => dot t.1 (cross t.2.1 t.2.2)).sum

/-- `computeMeshVolume` (main.ts lines 470-494): `|Σ a · (b × c) / 6|`,
and `0` when the position attribute is missing. -/
def computeMeshVolume (g : BufferGeometryQ) : ℚ :=
  match g.position with
  | none => 0
  | some ps => |signedVolumeSum (trianglesFrom ps g.index) / 6|

/-- A three.js `Plane`: unit-normal direction and signed constant. -/
structure PlaneQ where
  normal : Vec3
  constant : ℚ

/-- `Plane.distanceToPoint`: `normal · p + constant`. -/
def distanceToPoint (pl : PlaneQ) (v : Vec3) : ℚ :=
  dot pl.normal v + pl.constant

/-- The pairing loop of `buildSectionLineGeometry` (main.ts lines 414-420):
consecutive points become segment endpoints, a trailing odd point is
dropped. -/
def pairConsecutive : List Vec3 → List Vec3
  | p1 :: p2 :: rest => p1 :: p2 :: pairConsecutive rest
  | _ => []

/-- The segment points one triangle contributes in
`buildSectionLineGeometry` (main.ts lines 397-420): all three edges for a
coplanar triangle, otherwise the paired-up edge intersections. -/
def sectionTriangleSegments (pl : PlaneQ) (tol : ℚ) (t : Tri) : List Vec3 :=
  let a := t.1
  let b := t.2.1
  let c := t.2.2
  let da := distanceToPoint pl a
  let db := distanceToPoint pl b
  let dc := distanceToPoint pl c
  if |da| < tol ∧ |db| < tol ∧ |dc| < tol then [a, b, b, c, c, a]
  else
    pairConsecutive
      (computeIntersection a b da db tol ++
       computeIntersection b c db dc tol ++
       computeIntersection c a dc da tol)

/-- `buildSectionLineGeometry` (main.ts lines 377-430): `none` when the
position attribute is missing or no segment was produced; otherwise the
flat list of segment endpoints. The default tolerance is `1e-4`. -/
def buildSectionLineGeometry (g : BufferGeometryQ) (pl : PlaneQ) (tol : ℚ) :
    Option (List Vec3) :=
  match g.position with
  | none => none
  | some ps =>
    let segments := ((trianglesFrom ps g.index).map (sectionTriangleSegments pl tol)).flatten
    if segments.isEmpty then none else some segments

/-- An edge whose two distances lie strictly on the same side beyond the
tolerance produces no intersection point. -/
theorem computeIntersection_same_side (p1 p2 : Vec3) (d1 d2 tol : ℚ)
    (htol : 0 ≤ tol)
    (h : (tol < d1 ∧ tol < d2) ∨ (d1 < -tol ∧ d2 < -tol)) :
    computeIntersection p1 p2 d1 d2 tol = [] := by
  have hop1 : ¬(|d1| ≤ tol) := by
    rw [abs_le]; push_neg
    rcases h with ⟨h1, _⟩ | ⟨h1, _⟩ <;> intro hc <;> linarith
  have hop2 : ¬(|d2| ≤ tol) := by
    rw [abs_le]; push_neg
    rcases h with ⟨_, h2⟩ | ⟨_, h2⟩ <;> intro hc <;> linarith
  have hnsc : ¬((tol < d1 ∧ d2 < -tol) ∨ (d1 < -tol ∧ tol < d2)) := by
    rintro (⟨hs1, hs2⟩ | ⟨hs1, hs2⟩) <;>
      rcases h with ⟨h1, h2⟩ | ⟨h1, h2⟩ <;> linarith
  simp only [computeIntersection]
  rw [if_neg (by tauto), if_neg hop1, if_neg hop2, if_pos hnsc]

/-- A triangle whose three distances lie strictly on the same side beyond
the tolerance contributes no segment points. -/
theorem sectionTriangleSegments_same_side (pl : PlaneQ) (tol : ℚ) (t : Tri)
    (htol : 0 ≤ tol)
    (h : (tol < distanceToPoint pl t.1 ∧ tol < distanceToPoint pl t.2.1 ∧
            tol < distanceToPoint pl t.2.2) ∨
         (distanceToPoint pl t.1 < -tol ∧ distanceToPoint pl t.2.1 < -tol ∧
            distanceToPoint pl t.2.2 < -tol)) :
    sectionTriangleSegments pl tol t = [] := by
  have hco : ¬(|distanceToPoint pl t.1| < tol ∧ |distanceToPoint pl t.2.1| < tol ∧
      |distanceToPoint pl t.2.2| < tol) := by
    rintro ⟨h1, _, _⟩
    rw [abs_lt] at h1
    rcases h with ⟨ha, _, _⟩ | ⟨ha, _, _⟩ <;> linarith [h1.1, h1.2]
  simp only [sectionTriangleSegments]
  rw [if_neg hco,
    computeIntersection_same_side _ _ _ _ _ htol
      (by rcases h with ⟨ha, hb, _⟩ | ⟨ha, hb, _⟩; exacts [Or.inl ⟨ha, hb⟩, Or.inr ⟨ha, hb⟩]),
    computeIntersection_same_side _ _ _ _ _ htol
      (by rcases h with ⟨_, hb, hc⟩ | ⟨_, hb, hc⟩; exacts [Or.inl ⟨hb, hc⟩, Or.inr ⟨hb, hc⟩]),
    computeIntersection_same_side _ _ _ _ _ htol
      (by rcases h with ⟨ha, _, hc⟩ | ⟨ha, _, hc⟩; exacts [Or.inl ⟨hc, ha⟩, Or.inr ⟨hc, ha⟩])]
  rfl

/-- C6: when every vertex of every triangle lies strictly on one side of
the cutting plane, beyond the tolerance — in particular when the plane
misses the mesh's bounding box — `buildSectionLineGeometry` returns `none`
(no section polyline). -/
theorem buildSection_none_outside (g : BufferGeometryQ) (pl : PlaneQ) (tol : ℚ)
    (htol : 0 ≤ tol)
    (h : (∀ t ∈ meshTriangles g,
            tol < distanceToPoint pl t.1 ∧ tol < distanceToPoint pl t.2.1 ∧
              tol < distanceToPoint pl t.2.2) ∨
         (∀ t ∈ meshTriangles g,
            distanceToPoint pl t.1 < -tol ∧ distanceToPoint pl t.2.1 < -tol ∧
              distanceToPoint pl t.2.2 < -tol)) :
    buildSectionLineGeometry g pl tol = none := by
  rw [buildSectionLineGeometry]
  cases hp : g.position with
  | none => rfl
  | some ps =>
    have htris : ∀ t ∈ trianglesFrom ps g.index, sectionTriangleSegments pl tol t = [] := by
      intro t ht
      have hmem : t ∈ meshTriangles g := by rw [meshTriangles, hp]; exact ht
      rcases h with h | h
      · exact sectionTriangleSegments_same_side pl tol t htol (Or.inl (h t hmem))
      · exact sectionTriangleSegments_same_side pl tol t htol (Or.inr (h t hmem))
    have hflat : ((trianglesFrom ps g.index).map (sectionTriangleSegments pl tol)).flatten = [] := by
      rw [List.flatten_eq_nil_iff]
      intro l hl
      rw [List.mem_map] at hl
      obtain ⟨t, ht, rfl⟩ := hl
      exact htris t ht
    simp only [hflat]
    rfl

/-- Witness for C6: a single triangle at `x ∈ [5,7]` against the plane
`x = 0` with tolerance `1e-4`. -/
theorem buildSection_none_outside_witness :
    (0 : ℚ) ≤ 1 / 10000 ∧
      buildSectionLineGeometry
          { position := some [(5, 0, 0), (6, 1, 0), (7, 0, 1)], index := none }
          { normal := (1, 0, 0), constant := 0 } (1 / 10000) = none :=
  ⟨by norm_num,
    buildSection_none_outside
      { position := some [(5, 0, 0), (6, 1, 0), (7, 0, 1)], index := none }
      { normal := (1, 0, 0), constant := 0 } (1 / 10000) (by norm_num)
      (Or.inl (by
        intro t ht
        simp only [meshTriangles, trianglesFrom, triangleTotal, vertexSlotCount,
          vertexIndexAt, fetchVertex] at ht
        norm_num [List.range_succ] at ht
        subst ht
        norm_num [distanceToPoint, dot]))⟩

/-- C7: a geometry with missing vertex data (no position attribute), or
with an empty position list and no index — the transient state before a
mesh is built — yields volume `0` from `computeMeshVolume` and no section
polyline from `buildSectionLineGeometry`; both functions are total, so
neither raises. -/
theorem missing_position_neutral (g : BufferGeometryQ)
    (h : g.position = none ∨ (g.position = some [] ∧ g.index = none)) :
    computeMeshVolume g = 0 ∧
      ∀ (pl : PlaneQ) (tol : ℚ), buildSectionLineGeometry g pl tol = none := by
  rcases h with hp | ⟨hp, hi⟩
  · constructor
    · rw [computeMeshVolume, hp]
    · intro pl tol
      rw [buildSectionLineGeometry, hp]
  · have htris : trianglesFrom [] g.index = [] := by
      rw [hi]
      rfl
    constructor
    · rw [computeMeshVolume, hp]
      simp [htris, signedVolumeSum]
    · intro pl tol
      rw [buildSectionLineGeometry, hp]
      simp [htris]

/-- Witness for C7 on the empty `BufferGeometryQ` (no attributes). -/
theorem missing_position_neutral_witness :
    computeMeshVolume { position := none, index := none } = 0 ∧
      buildSectionLineGeometry { position := none, index := none }
        { normal := (1, 0, 0), constant := 0 } (1 / 10000) = none :=
  ⟨(missing_position_neutral { position := none, index := none } (Or.inl rfl)).1,
   (missing_position_neutral { position := none, index := none } (Or.inl rfl)).2
     { normal := (1, 0, 0), constant := 0 } (1 / 10000)⟩

/-- Translate the three vertices of a triangle by `o`. -/
def translateTri (o : Vec3) (t : Tri) : Tri :=
  (t.1 + o, t.2.1 + o, t.2.2 + o)

/-- Rigid translation of a geometry: every vertex moved by `o`. -/
def translateGeometry (o : Vec3) (g : BufferGeometryQ) : BufferGeometryQ :=
  { g with position := g.position.map (List.map (· + o)) }

/-- The directed boundary edges of a triangle. -/
def triEdges (t : Tri) : Multiset (Vec3 × Vec3) :=
  {(t.1, t.2.1), (t.2.1, t.2.2), (t.2.2, t.1)}

/-- All directed edges of a triangle list, with multiplicity. -/
def edgeMultiset (ts : List Tri) : Multiset (Vec3 × Vec3) :=
  (ts.map triEdges).sum

/-- A closed, consistently wound triangle mesh: reversing every directed
edge permutes the directed-edge multiset, i.e. each directed edge is
matched by its reverse on a neighbouring triangle. -/
def ClosedMesh (ts : List Tri) : Prop :=
  (edgeMultiset ts).map Prod.swap = edgeMultiset ts

/-- The per-triangle boundary term of the translation expansion:
`Σ (a×b + b×c + c×a)` over all triangles. -/
def edgeCrossSum (ts : List Tri) : Vec3 :=
  (ts.map fun t => cross t.1 t.2.1 + cross t.2.1 t.2.2 + cross t.2.2 t.1).sum

theorem cross_skew (u v : Vec3) : cross u v = -(cross v u) := by
  simp only [cross, Prod.neg_mk, Prod.mk.injEq]
  refine ⟨by ring, by ring, by ring⟩

theorem dot_add_right (o x y : Vec3) : dot o (x + y) = dot o x + dot o y := by
  simp only [dot, Prod.fst_add, Prod.snd_add]
  ring

theorem dot_zero_right (o : Vec3) : dot o 0 = 0 := by
  simp [dot]

/-- Expanding one scalar triple product under translation: the extra terms
collect into the dot product of the offset with the triangle's boundary
cross-product sum. -/
theorem dot_triple_translate (a b c o : Vec3) :
    dot (a + o) (cross (b + o) (c + o)) =
      dot a (cross b c) + dot o (cross a b + cross b c + cross c a) := by
  simp only [dot, cross, Prod.fst_add, Prod.snd_add, Prod.mk_add_mk]
  ring

theorem signedVolumeSum_translate (o : Vec3) (ts : List Tri) :
    signedVolumeSum (ts.map (translateTri o)) =
      signedVolumeSum ts + dot o (edgeCrossSum ts) := by
  induction ts with
  | nil => simp [signedVolumeSum, edgeCrossSum, dot_zero_right]
  | cons t ts ih =>
    simp only [List.map_cons, signedVolumeSum, List.sum_cons, edgeCrossSum] at *
    simp only [translateTri]
    rw [dot_triple_translate, ih]
    simp only [dot_add_right]
    ring

theorem edgeCrossSum_eq_multiset (ts : List Tri) :
    edgeCrossSum ts = ((edgeMultiset ts).map fun e => cross e.1 e.2).sum := by
  induction ts with
  | nil => rfl
  | cons t ts ih =>
    simp only [edgeCrossSum, edgeMultiset, List.map_cons, List.sum_cons,
      Multiset.map_add, Multiset.sum_add] at *
    rw [ih, triEdges]
    simp only [Multiset.insert_eq_cons, Multiset.map_cons, Multiset.sum_cons,
      Multiset.map_singleton, Multiset.sum_singleton]
    abel

theorem vec_eq_zero_of_self_neg (v : Vec3) (h : v = -v) : v = 0 := by
  obtain ⟨x, y, z⟩ := v
  simp only [Prod.neg_mk, Prod.mk.injEq] at h
  obtain ⟨h1, h2, h3⟩ := h
  have hx : x = 0 := by linarith
  have hy : y = 0 := by linarith
  have hz : z = 0 := by linarith
  simp [hx, hy, hz, Prod.mk_eq_zero]

/-- On a closed mesh the boundary cross-product terms cancel edge against
reversed edge. -/
theorem edgeCrossSum_zero_of_closed (ts : List Tri) (h : ClosedMesh ts) :
    edgeCrossSum ts = 0 := by
  rw [edgeCrossSum_eq_multiset]
  apply vec_eq_zero_of_self_neg
  conv_lhs => rw [← h]
  rw [Multiset.map_map]
  have hswap : ((fun e : Vec3 × Vec3 => cross e.1 e.2) ∘ Prod.swap) =
      fun e : Vec3 × Vec3 => -(cross e.1 e.2) := by
    funext e
    simp only [Function.comp_apply, Prod.fst_swap, Prod.snd_swap]
    exact cross_skew e.2 e.1
  rw [hswap, Multiset.sum_map_neg]

/-- Validity of the index data for a vertex list: every index refers to an
existing vertex and the slot count is a multiple of three. Every mesh the
program builds and feeds to the measurement routines satisfies this. -/
def WellIndexed (ps : List Vec3) (idx : Option (List ℕ)) : Prop :=
  match idx with
  | some is => is.length % 3 = 0 ∧ ∀ i ∈ is, i < ps.length
  | none => ps.length % 3 = 0

theorem fetchVertex_map_translate (o : Vec3) :
    ∀ (ps : List Vec3) (i : ℕ), i < ps.length →
      fetchVertex (ps.map (· + o)) i = fetchVertex ps i + o := by
  intro ps
  induction ps with
  | nil => intro i hi; exact absurd hi (by simp)
  | cons v ps ih =>
    intro i hi
    cases i with
    | zero => rfl
    | succ j => exact ih j (Nat.lt_of_succ_lt_succ hi)

theorem trianglesFrom_translate (o : Vec3) (ps : List Vec3) (idx : Option (List ℕ))
    (hw : WellIndexed ps idx) :
    trianglesFrom (ps.map (· + o)) idx = (trianglesFrom ps idx).map (translateTri o) := by
  have hcount : vertexSlotCount (ps.map (· + o)) idx = vertexSlotCount ps idx := by
    cases idx <;> simp [vertexSlotCount]
  have hidx : ∀ k, k < vertexSlotCount ps idx → vertexIndexAt idx k < ps.length := by
    intro k hk
    cases hix : idx with
    | none =>
      rw [hix] at hk
      exact hk
    | some is =>
      rw [hix] at hk hw
      obtain ⟨_, hin⟩ := hw
      rw [vertexIndexAt]
      have hgk : is.getD k 0 = is.get ⟨k, hk⟩ := by
        rw [List.getD_eq_getElem _ _ hk]
        rfl
      rw [hgk]
      exact hin _ (List.get_mem is k hk)
  have hslots : ∀ tri, tri < triangleTotal ps idx →
      3 * tri < vertexSlotCount ps idx ∧ 3 * tri + 1 < vertexSlotCount ps idx ∧
        3 * tri + 2 < vertexSlotCount ps idx := by
    intro tri htri
    unfold triangleTotal at htri
    have hmod : vertexSlotCount ps idx % 3 = 0 := by
      cases hix : idx with
      | none => rw [hix] at hw; exact hw
      | some is => rw [hix] at hw; exact hw.1
    omega
  unfold trianglesFrom triangleTotal
  rw [hcount, List.map_map]
  apply List.map_congr_left
  intro tri htri
  rw [List.mem_range] at htri
  obtain ⟨h0, h1, h2⟩ := hslots tri (by unfold triangleTotal; exact htri)
  simp only [Function.comp_apply, translateTri]
  rw [fetchVertex_map_translate o ps _ (hidx _ h0),
    fetchVertex_map_translate o ps _ (hidx _ h1),
    fetchVertex_map_translate o ps _ (hidx _ h2)]

/-- C3: `computeMeshVolume` — the absolute value of one sixth of the summed
scalar triple products — is unchanged when every vertex of a closed,
consistently wound mesh is translated by a constant offset; in exact
arithmetic the invariance is exact, hence certainly within numerical
tolerance. -/
theorem computeMeshVolume_translation_invariant (g : BufferGeometryQ) (o : Vec3)
    (ps : List Vec3) (hp : g.position = some ps) (hw : WellIndexed ps g.index)
    (hc : ClosedMesh (meshTriangles g)) :
    computeMeshVolume (translateGeometry o g) = computeMeshVolume g := by
  have htris : meshTriangles g = trianglesFrom ps g.index := by
    rw [meshTriangles, hp]
  have hvol : signedVolumeSum ((trianglesFrom ps g.index).map (translateTri o)) =
      signedVolumeSum (trianglesFrom ps g.index) := by
    rw [signedVolumeSum_translate, edgeCrossSum_zero_of_closed _ (htris ▸ hc),
      dot_zero_right, add_zero]
  have hptrans : (translateGeometry o g).position = some (ps.map (· + o)) := by
    rw [translateGeometry]
    simp [hp]
  have hitrans : (translateGeometry o g).index = g.index := rfl
  rw [computeMeshVolume, computeMeshVolume, hptrans, hp]
  simp only [hitrans]
  rw [trianglesFrom_translate o ps g.index hw, hvol]

/-- The four faces of a consistently wound unit tetrahedron, listed as a
non-indexed vertex stream. -/
def tetraVertices : List Vec3 :=
  [(0, 0, 0), (0, 1, 0), (1, 0, 0),
   (0, 0, 0), (1, 0, 0), (0, 0, 1),
   (0, 0, 0), (0, 0, 1), (0, 1, 0),
   (1, 0, 0), (0, 1, 0), (0, 0, 1)]

/-- Geometry holding the tetrahedron. -/
def tetraGeometry : BufferGeometryQ :=
  { position := some tetraVertices, index := none }

/-- Witness for C3: translating the closed tetrahedron by `(5, -3, 7)`
leaves its measured volume unchanged. -/
theorem computeMeshVolume_translation_invariant_witness :
    tetraGeometry.position = some tetraVertices ∧
      WellIndexed tetraVertices tetraGeometry.index ∧
      ClosedMesh (meshTriangles tetraGeometry) ∧
      computeMeshVolume (translateGeometry ((5, -3, 7) : Vec3) tetraGeometry) =
        computeMeshVolume tetraGeometry :=
  ⟨rfl,
   by show tetraVertices.length % 3 = 0; decide,
   by unfold ClosedMesh; decide,
   computeMeshVolume_translation_invariant tetraGeometry ((5, -3, 7) : Vec3)
     tetraVertices rfl (by show tetraVertices.length % 3 = 0; decide)
     (by unfold ClosedMesh; decide)⟩

end ParametricVase
